import Mathlib

/-!
Shallow embedding of the Aura emotion engine (spotify_player.py, interface.py).

External service calls (the spotipy client, the webcam and the classifier) are
modelled by an environment `Env` that fixes the outcome of every call; the
computations themselves are translated into a writer-plus-exception monad
`M α = List Ev × Except Unit α` whose trace component records every external
call and every print, so that claims about which collaborators are invoked
("call-count assertions") become statements about the trace.  A Python
`try ... except` block is translated by `M.attempt`; a bare raise (for example
indexing `None`) by `M.raise`.  Python floats carrying audio-feature values are
modelled by rationals.
-/

namespace Aura

/-- A print statement of the engine, identified by its call site; the
now-playing print carries the payload it formats (the lowercased emotion and
the full queue length). -/
inductive Msg where
  | layer1
  | layer2
  | layer3
  | noDevice
  | noTracks
  | playbackFailed
  | nowPlaying (emotion : String) (total : Nat)
deriving DecidableEq

/-- One external (spotipy) call together with the arguments it was given. -/
inductive Call where
  | devices
  | transferPlayback (device : String)
  | currentUserTopArtists (limit : Nat)
  | currentUserTopTracks (limit : Nat)
  | recommendations (seedGenres : List String) (seedArtists : Option (List String))
      (seedTracks : Option (List String)) (limit : Nat) (targets : List (String × Rat))
  | currentUserPlaylists
  | playlistTracks (playlistId : String) (limit : Nat)
  | audioFeatures (trackIds : List String)
  | search (q : String) (ty : String) (limit : Nat)
  | startPlayback (deviceId : String) (uris : List String)
  | pausePlayback
  | nextTrack
deriving DecidableEq

/-- An observable event: an external call or a print. -/
inductive Ev where
  | call (c : Call)
  | print (m : Msg)
deriving DecidableEq

/-- Writer-plus-exception monad: the trace of events emitted so far, and
either a value or a (swallowed-type) Python exception. -/
def M (α : Type) : Type := List Ev × Except Unit α

/-- Return a value, emitting no event. -/
@[simp] def M.pure (a : α) : M α := ([], Except.ok a)

/-- Sequencing: an exception aborts the rest of the block, keeping the trace
of what already ran. -/
def M.bind (x : M α) (f : α → M β) : M β :=
  match x.2 with
  | Except.ok a => (x.1 ++ (f a).1, (f a).2)
  | Except.error e => (x.1, Except.error e)

@[simp] instance instMonadM : Monad M where
  pure := M.pure
  bind := M.bind

/-- Translation of a Python try/except block: run the body; on an exception
run the handler (events already emitted by the body are kept). -/
def M.attempt (x : M α) (h : Unit → M α) : M α :=
  match x.2 with
  | Except.ok a => (x.1, Except.ok a)
  | Except.error e => (x.1 ++ (h e).1, (h e).2)

/-- An external call: record the event and adopt the environment-given
outcome. -/
@[simp] def M.callE (c : Call) (r : Except Unit α) : M α := ([Ev.call c], r)

/-- A print statement: record the message. -/
@[simp] def M.emit (m : Msg) : M Unit := ([Ev.print m], Except.ok ())

/-- An exception raised by pure code (e.g. subscripting None). -/
def M.raise : M α := ([], Except.error ())

/-- A device object as returned by sp.devices, restricted to the fields the
code reads. -/
structure Device where
  id : String
  is_active : Bool
deriving DecidableEq

/-- A track object, restricted to the fields the code reads. -/
structure TrackObj where
  id : String
  uri : String
deriving DecidableEq

/-- A playlist object, restricted to the fields the code reads. -/
structure Playlist where
  id : String
deriving DecidableEq

/-- A playlist-tracks item: its track field may be null. -/
structure Item where
  track : Option TrackObj
deriving DecidableEq

/-- An audio-features map (feature name to measured value). -/
abbrev FeatMap := List (String × Rat)

/-- The environment: the outcome of every external call the engine can make,
plus the randomness source (`pick` models random.choice by an index into the
candidate list). -/
structure Env where
  devices : Except Unit (List Device)
  transfer_playback : String → Except Unit Unit
  current_user_top_artists : Except Unit (List String)
  current_user_top_tracks : Except Unit (List String)
  recommendations : List String → Option (List String) → Option (List String) → Nat →
      List (String × Rat) → Except Unit (List TrackObj)
  current_user_playlists : Except Unit (List Playlist)
  playlist_tracks : String → Nat → Except Unit (List Item)
  audio_features : List String → Except Unit (List (Option FeatMap))
  search : String → String → Nat → Except Unit (List TrackObj)
  start_playback : String → List String → Except Unit Unit
  pause_playback : Except Unit Unit
  next_track : Except Unit Unit
  pick : List String → Nat

/-- Python dict lookup with a default, `d.get(k, dflt)`, for a literal dict
given as an association list. -/
def dictGet (d : List (String × α)) (k : String) (dflt : α) : α :=
  match d.find? (fun p => p.1 == k) with
  | some p => p.2
  | none => dflt

/-- EMOTION_GENRES table of SpotifyPlayer. -/
def EMOTION_GENRES : List (String × List String) :=
  [("happy", ["pop", "dance", "latin"]),
   ("sad", ["acoustic", "classical", "blues"]),
   ("angry", ["rock", "metal", "punk"]),
   ("surprise", ["electronic", "house", "edm"]),
   ("disgust", ["soul", "r&b", "blues"]),
   ("fear", ["ambient", "soundtracks", "darkwave"]),
   ("neutral", ["indie", "chill", "lofi"])]

/-- EMOTION_TARGETS table of SpotifyPlayer: feature name to (min, max). -/
def EMOTION_TARGETS : List (String × List (String × Rat × Rat)) :=
  [("happy", [("valence", 0.7, 1.0), ("energy", 0.6, 1.0), ("danceability", 0.5, 1.0)]),
   ("sad", [("valence", 0.0, 0.3), ("energy", 0.0, 0.3), ("acousticness", 0.4, 1.0)]),
   ("angry", [("valence", 0.1, 0.4), ("energy", 0.6, 1.0), ("tempo", 90, 150)]),
   ("surprise", [("valence", 0.5, 0.8), ("energy", 0.6, 0.9), ("danceability", 0.5, 0.8)]),
   ("disgust", [("valence", 0.2, 0.5), ("energy", 0.3, 0.6), ("acousticness", 0.4, 0.7)]),
   ("fear", [("valence", 0.0, 0.4), ("energy", 0.2, 0.5), ("instrumentalness", 0.3, 1.0)]),
   ("neutral", [("valence", 0.4, 0.6), ("energy", 0.4, 0.6)])]

/-- random.choice on a candidate list, driven by the environment's randomness
source; never reached with an empty list in this program. -/
def randomChoice (env : Env) (xs : List String) : String :=
  xs.getD (env.pick xs % xs.length) ""

/-- SpotifyPlayer._convert_targets: midpoint (low+high)/2 of every interval of
the emotion's target set, keyed as target_(feature). -/
def convert_targets (emotion : String) : List (String × Rat) :=
  (dictGet EMOTION_TARGETS emotion []).map fun kv =>
    ("target_" ++ kv.1, (kv.2.1 + kv.2.2) / 2)

/-- SpotifyPlayer._match_features: fail on the first target feature present on
the track whose value falls outside [low, high]; otherwise pass. -/
def match_features (feat : FeatMap) (target : List (String × Rat × Rat)) : Bool :=
  target.all fun kv =>
    match feat.find? (fun p => p.1 == kv.1) with
    | none => true
    | some p => decide (kv.2.1 ≤ p.2 ∧ p.2 ≤ kv.2.2)

/-- SpotifyPlayer.get_active_device: list devices, prefer the active one, else
the first; any exception gives None. -/
def get_active_device (env : Env) : M (Option String) :=
  M.attempt
    (do
      let ds ← M.callE Call.devices env.devices
      match ds with
      | [] => pure none
      | d0 :: _ =>
        match ds.find? (fun d => d.is_active) with
        | some a => pure (some a.id)
        | none => pure (some d0.id))
    (fun _ => pure none)

/-- SpotifyPlayer.ensure_device: resolve a device; if one was found (truthy id)
best-effort transfer playback to it, swallowing transfer errors. -/
def ensure_device (env : Env) : M (Option String) := do
  let device ← get_active_device env
  match device with
  | some d =>
    if d == "" then pure (some d)
    else do
      let _ ← M.attempt (M.callE (Call.transferPlayback d) (env.transfer_playback d))
        (fun _ => pure ())
      pure (some d)
  | none => pure none

/-- SpotifyPlayer._layer_user_recommendations (Layer 1): seed with the top
artist and top track when present (a falsy id counts as absent, as in Python),
one random emotion genre, limit 40 and the midpoint targets; any exception
yields the empty queue. -/
def layer_user_recommendations (env : Env) (emotion : String) : M (List String) := do
  let _ ← M.emit Msg.layer1
  M.attempt
    (do
      let top_artists ← M.callE (Call.currentUserTopArtists 5) env.current_user_top_artists
      let top_tracks ← M.callE (Call.currentUserTopTracks 5) env.current_user_top_tracks
      let seed_artist : Option String := top_artists.head?
      let seed_track : Option String := top_tracks.head?
      let seed_genre := randomChoice env (dictGet EMOTION_GENRES emotion ["pop"])
      let targets := convert_targets emotion
      let artistsArg : Option (List String) :=
        match seed_artist with
        | some a => if a == "" then none else some [a]
        | none => none
      let tracksArg : Option (List String) :=
        match seed_track with
        | some t => if t == "" then none else some [t]
        | none => none
      let tracks ← M.callE
        (Call.recommendations [seed_genre] artistsArg tracksArg 40 targets)
        (env.recommendations [seed_genre] artistsArg tracksArg 40 targets)
      pure (tracks.map TrackObj.uri))
    (fun _ => pure [])

/-- SpotifyPlayer._layer_playlist_matches (Layer 2): for each playlist fetch up
to 50 items, build track_ids from the items whose track is non-null, fetch
audio features for those ids, and zip the feature list against the unfiltered
item list, keeping an item's track uri when the paired feature map is truthy
and matches the emotion targets (subscripting a null track raises); any
exception yields the empty queue. -/
def layer_playlist_matches (env : Env) (emotion : String) : M (List String) := do
  let _ ← M.emit Msg.layer2
  M.attempt
    (do
      let playlists ← M.callE Call.currentUserPlaylists env.current_user_playlists
      let target := dictGet EMOTION_TARGETS emotion []
      playlists.foldlM
        (fun matched pl => do
          let items ← M.callE (Call.playlistTracks pl.id 50) (env.playlist_tracks pl.id 50)
          let track_ids := items.filterMap fun it => it.track.map TrackObj.id
          if track_ids.isEmpty then
            pure matched
          else do
            let features ← M.callE (Call.audioFeatures track_ids) (env.audio_features track_ids)
            (features.zip items).foldlM
              (fun m fi =>
                match fi.1 with
                | some f =>
                  if f.isEmpty then pure m
                  else if match_features f target then
                    match fi.2.track with
                    | some t => pure (m ++ [t.uri])
                    | none => M.raise
                  else pure m
                | none => pure m)
              matched)
        [])
    (fun _ => pure [])

/-- SpotifyPlayer._layer_global_recommendations (Layer 3): one random genre
seed, no artist or track seeds, limit 50 with the midpoint targets; on no
tracks or failure fall back to a keyword search for genre:(seed) with limit
30; if the search also fails return the empty queue.  The seed is chosen
inside the first try block in the source but its computation cannot raise, so
it is hoisted here. -/
def layer_global_recommendations (env : Env) (emotion : String) : M (List String) := do
  let _ ← M.emit Msg.layer3
  let seed := randomChoice env (dictGet EMOTION_GENRES emotion ["pop"])
  let targets := convert_targets emotion
  let first ← M.attempt
    (do
      let tracks ← M.callE (Call.recommendations [seed] none none 50 targets)
        (env.recommendations [seed] none none 50 targets)
      if tracks.isEmpty then pure none
      else pure (some (tracks.map TrackObj.uri)))
    (fun _ => pure none)
  match first with
  | some uris => pure uris
  | none =>
    M.attempt
      (do
        let its ← M.callE (Call.search ("genre:" ++ seed) "track" 30)
          (env.search ("genre:" ++ seed) "track" 30)
        pure (its.map TrackObj.uri))
      (fun _ => pure [])

/-- The multi-layered queue of play_for_emotion: Python or-chaining of the
three layer results (a layer is run only while every earlier result is
empty). -/
def queue_for_emotion (env : Env) (emotion : String) : M (List String) := do
  let q1 ← layer_user_recommendations env emotion
  if q1.isEmpty then do
    let q2 ← layer_playlist_matches env emotion
    if q2.isEmpty then layer_global_recommendations env emotion
    else pure q2
  else pure q1

/-- SpotifyPlayer.play_for_emotion: lowercase the emotion, resolve a device
(falsy device aborts), build the layered queue, submit the first 50 uris and
report the emotion and the full queue length; a playback exception gives
False. -/
def play_for_emotion (env : Env) (emotion : String) : M Bool := do
  let em := emotion.toLower
  let device ← ensure_device env
  match device with
  | none => do
    let _ ← M.emit Msg.noDevice
    pure false
  | some d =>
    if d == "" then do
      let _ ← M.emit Msg.noDevice
      pure false
    else do
      let queue ← queue_for_emotion env em
      if queue.isEmpty then do
        let _ ← M.emit Msg.noTracks
        pure false
      else
        M.attempt
          (do
            let _ ← M.callE (Call.startPlayback d (queue.take 50))
              (env.start_playback d (queue.take 50))
            let _ ← M.emit (Msg.nowPlaying em queue.length)
            pure true)
          (fun _ => do
            let _ ← M.emit Msg.playbackFailed
            pure false)

/-- SpotifyPlayer.pause: pause playback, swallowing any exception. -/
def pause (env : Env) : M Unit :=
  M.attempt (M.callE Call.pausePlayback env.pause_playback) (fun _ => pure ())

/-- SpotifyPlayer.next: skip to the next track, swallowing any exception. -/
def next (env : Env) : M Unit :=
  M.attempt (M.callE Call.nextTrack env.next_track) (fun _ => pure ())

/-- interface.py EMOTION_FRAMES. -/
def EMOTION_FRAMES : Nat := 5

/-- The labels gathered by detect_dominant_emotion's loop: one outcome per
sampled frame, (frame-grab success, classifier label when any); failed grabs
and unclassified frames are skipped. -/
def frame_emotions (outcomes : List (Bool × Option String)) : List String :=
  outcomes.filterMap fun fr => if fr.1 then fr.2 else none

/-- The largest multiplicity of any element of the list. -/
def maxCount (xs : List String) : Nat :=
  (xs.map fun x => xs.count x).foldr max 0

/-- Model of Counter(xs).most_common(1)[0][0]: Counter's dict keeps keys in
first-insertion order and most_common sorts stably by descending count, so the
head of most_common is the first element of xs whose count is maximal. -/
def mostCommon (xs : List String) : Option String :=
  xs.find? fun x => xs.count x == maxCount xs

/-- interface.detect_dominant_emotion over the per-frame outcomes: the most
frequent collected label, None when no frame yielded one. -/
def detect_dominant_emotion (outcomes : List (Bool × Option String)) : Option String :=
  let emotions := frame_emotions outcomes
  if emotions.isEmpty then none else mostCommon emotions

/-- The genre seed picked by a layer for the given emotion. -/
def seedOf (env : Env) (emotion : String) : String :=
  randomChoice env (dictGet EMOTION_GENRES emotion ["pop"])

/-- Events that can only be produced by Layer 2. -/
def layer2Ev : Ev → Bool
  | Ev.print Msg.layer2 => true
  | Ev.call Call.currentUserPlaylists => true
  | Ev.call (Call.playlistTracks _ _) => true
  | Ev.call (Call.audioFeatures _) => true
  | _ => false

/-- Events that can only be produced by Layer 3 (its entry print witnesses
every invocation, and the search call is made nowhere else). -/
def layer3Ev : Ev → Bool
  | Ev.print Msg.layer3 => true
  | Ev.call (Call.search _ _ _) => true
  | _ => false

/-- Events belonging to any of the three recommendation layers. -/
def recommendationEv : Ev → Bool
  | Ev.print Msg.layer1 => true
  | Ev.print Msg.layer2 => true
  | Ev.print Msg.layer3 => true
  | Ev.call (Call.currentUserTopArtists _) => true
  | Ev.call (Call.currentUserTopTracks _) => true
  | Ev.call (Call.recommendations _ _ _ _ _) => true
  | Ev.call Call.currentUserPlaylists => true
  | Ev.call (Call.playlistTracks _ _) => true
  | Ev.call (Call.audioFeatures _) => true
  | Ev.call (Call.search _ _ _) => true
  | _ => false

@[simp] theorem M.bind_eq (x : M α) (f : α → M β) : x >>= f = M.bind x f := rfl

@[simp] theorem M.pure_eq (a : α) : (pure a : M α) = M.pure a := rfl

@[simp] theorem M.bind_ok (tr : List Ev) (a : α) (f : α → M β) :
    M.bind (tr, Except.ok a) f = (tr ++ (f a).1, (f a).2) := rfl

@[simp] theorem M.bind_error (tr : List Ev) (e : Unit) (f : α → M β) :
    M.bind (tr, Except.error e) f = (tr, Except.error e) := rfl

@[simp] theorem M.attempt_ok (tr : List Ev) (a : α) (h : Unit → M α) :
    M.attempt (tr, Except.ok a) h = (tr, Except.ok a) := rfl

@[simp] theorem M.attempt_error (tr : List Ev) (e : Unit) (h : Unit → M α) :
    M.attempt (tr, Except.error e) h = (tr ++ (h e).1, (h e).2) := rfl

/-- The computation produced no exception. -/
def M.succeeds (x : M α) : Prop := ∃ a, x.2 = Except.ok a

theorem M.succeeds_pure (a : α) : (M.pure a).succeeds := ⟨a, rfl⟩

theorem M.succeeds_bind {x : M α} {f : α → M β} (hx : x.succeeds)
    (hf : ∀ a, (f a).succeeds) : (M.bind x f).succeeds := by
  rcases x with ⟨tr, r⟩
  rcases hx with ⟨a, ha⟩
  simp only at ha
  subst ha
  simpa using hf a

theorem M.succeeds_attempt (x : M α) {h : Unit → M α} (hh : ∀ e, (h e).succeeds) :
    (M.attempt x h).succeeds := by
  rcases x with ⟨tr, r⟩
  cases r with
  | ok a => exact ⟨a, rfl⟩
  | error e => simpa using hh e

theorem M.succeeds_emit (m : Msg) : (M.emit m).succeeds := ⟨(), rfl⟩

theorem M.events_bind {x : M α} {f : α → M β} {P : Ev → Prop}
    (hx : ∀ ev ∈ x.1, P ev) (hf : ∀ a, ∀ ev ∈ (f a).1, P ev) :
    ∀ ev ∈ (M.bind x f).1, P ev := by
  rcases x with ⟨tr, r⟩
  cases r with
  | ok a =>
    intro ev hev
    rcases List.mem_append.1 hev with h | h
    · exact hx ev h
    · exact hf a ev h
  | error e => exact hx

theorem M.events_attempt {x : M α} {h : Unit → M α} {P : Ev → Prop}
    (hx : ∀ ev ∈ x.1, P ev) (hh : ∀ e, ∀ ev ∈ (h e).1, P ev) :
    ∀ ev ∈ (M.attempt x h).1, P ev := by
  rcases x with ⟨tr, r⟩
  cases r with
  | ok a => exact hx
  | error e =>
    intro ev hev
    rcases List.mem_append.1 hev with hm | hm
    · exact hx ev hm
    · exact hh e ev hm

theorem M.events_foldlM {f : β → α → M β} {P : Ev → Prop}
    (hf : ∀ b a, ∀ ev ∈ (f b a).1, P ev) :
    ∀ (l : List α) (init : β), ∀ ev ∈ (List.foldlM f init l).1, P ev := by
  intro l
  induction l with
  | nil => intro init ev hev; simp [List.foldlM] at hev
  | cons a l ih =>
    intro init
    rw [List.foldlM_cons, M.bind_eq]
    exact M.events_bind (hf init a) fun b => ih b

/-- The outcome of ensure_device, fully characterized: a lone devices call
giving no device, or a devices call choosing a falsy id (no transfer), or a
devices call followed by a best-effort transfer of the chosen id. -/
theorem ensure_device_cases (env : Env) :
    ensure_device env = ([Ev.call Call.devices], Except.ok none) ∨
    ensure_device env = ([Ev.call Call.devices], Except.ok (some "")) ∨
    ∃ i, i ≠ "" ∧ ensure_device env =
      ([Ev.call Call.devices, Ev.call (Call.transferPlayback i)], Except.ok (some i)) := by
  rcases hd : env.devices with e | ds
  · left
    simp [ensure_device, get_active_device, hd]
  · cases ds with
    | nil =>
      left
      simp [ensure_device, get_active_device, hd]
    | cons d0 ds =>
      rcases hf : (d0 :: ds).find? (fun d => d.is_active) with _ | a
      · by_cases h0 : d0.id = ""
        · right; left
          simp [ensure_device, get_active_device, hd, hf, h0]
        · right; right
          refine ⟨d0.id, h0, ?_⟩
          rcases ht : env.transfer_playback d0.id with e | u
          · simp [ensure_device, get_active_device, hd, hf, h0, ht]
          · simp [ensure_device, get_active_device, hd, hf, h0, ht]
      · by_cases h0 : a.id = ""
        · right; left
          simp [ensure_device, get_active_device, hd, hf, h0]
        · right; right
          refine ⟨a.id, h0, ?_⟩
          rcases ht : env.transfer_playback a.id with e | u
          · simp [ensure_device, get_active_device, hd, hf, h0, ht]
          · simp [ensure_device, get_active_device, hd, hf, h0, ht]

theorem ensure_device_succeeds (env : Env) : (ensure_device env).succeeds := by
  rcases ensure_device_cases env with h | h | ⟨i, _, h⟩ <;> exact ⟨_, by rw [h]⟩

theorem ensure_device_events (env : Env) :
    ∀ ev ∈ (ensure_device env).1,
      ev = Ev.call Call.devices ∨ ∃ s, ev = Ev.call (Call.transferPlayback s) := by
  rcases ensure_device_cases env with h | h | ⟨i, _, h⟩ <;> rw [h] <;> intro ev hev
  · simp at hev
    simp [hev]
  · simp at hev
    simp [hev]
  · simp at hev
    rcases hev with h1 | h1
    · simp [h1]
    · exact Or.inr ⟨i, by simp [h1]⟩

theorem layer1_events (env : Env) (em : String) :
    ∀ ev ∈ (layer_user_recommendations env em).1,
      layer2Ev ev = false ∧ layer3Ev ev = false := by
  simp only [layer_user_recommendations, M.bind_eq]
  refine M.events_bind (by simp [M.emit, layer2Ev, layer3Ev]) fun _ => ?_
  refine M.events_attempt (M.events_bind (by simp [layer2Ev, layer3Ev]) fun as => ?_)
    fun e => by simp
  refine M.events_bind (by simp [layer2Ev, layer3Ev]) fun ts => ?_
  refine M.events_bind (by simp [layer2Ev, layer3Ev]) fun tracks => ?_
  simp

theorem layer1_succeeds (env : Env) (em : String) :
    (layer_user_recommendations env em).succeeds := by
  simp only [layer_user_recommendations, M.bind_eq]
  refine M.succeeds_bind (M.succeeds_emit _) fun _ => ?_
  exact M.succeeds_attempt _ fun e => M.succeeds_pure _

theorem layer2_events (env : Env) (em : String) :
    ∀ ev ∈ (layer_playlist_matches env em).1, layer3Ev ev = false := by
  simp only [layer_playlist_matches, M.bind_eq]
  refine M.events_bind (by simp [layer3Ev]) fun _ => ?_
  refine M.events_attempt (M.events_bind (by simp [layer3Ev]) fun pls => ?_) fun e => by simp
  refine M.events_foldlM (fun matched pl => ?_) pls []
  refine M.events_bind (by simp [layer3Ev]) fun items => ?_
  by_cases hids : (items.filterMap fun it => it.track.map TrackObj.id).isEmpty
  · simp [hids]
  · simp only [hids, Bool.false_eq_true, if_false, M.bind_eq]
    refine M.events_bind (by simp [layer3Ev]) fun features => ?_
    refine M.events_foldlM (fun m fi => ?_) _ matched
    rcases fi with ⟨feat, item⟩
    rcases feat with _ | f
    · simp
    · by_cases hf : f.isEmpty <;> by_cases hm : match_features f (dictGet EMOTION_TARGETS em [])
      · simp [hf]
      · simp [hf]
      · rcases item.track with _ | t <;> simp [hf, hm, M.raise]
      · simp [hf, hm]

theorem layer2_succeeds (env : Env) (em : String) :
    (layer_playlist_matches env em).succeeds := by
  simp only [layer_playlist_matches, M.bind_eq]
  refine M.succeeds_bind (M.succeeds_emit _) fun _ => ?_
  exact M.succeeds_attempt _ fun e => M.succeeds_pure _

/-- Layer 2's trace always opens with its entry print. -/
theorem layer2_head (env : Env) (em : String) :
    ∃ tr, (layer_playlist_matches env em).1 = Ev.print Msg.layer2 :: tr := by
  simp only [layer_playlist_matches, M.bind_eq]
  exact ⟨_, rfl⟩

theorem layer3_succeeds (env : Env) (em : String) :
    (layer_global_recommendations env em).succeeds := by
  simp only [layer_global_recommendations, M.bind_eq]
  refine M.succeeds_bind (M.succeeds_emit _) fun _ => ?_
  refine M.succeeds_bind (M.succeeds_attempt _ fun e => M.succeeds_pure _) fun first => ?_
  rcases first with _ | uris
  · exact M.succeeds_attempt _ fun e => M.succeeds_pure _
  · exact M.succeeds_pure _

theorem queue_succeeds (env : Env) (em : String) :
    (queue_for_emotion env em).succeeds := by
  simp only [queue_for_emotion, M.bind_eq]
  refine M.succeeds_bind (layer1_succeeds env em) fun q1 => ?_
  by_cases h1 : q1.isEmpty
  · simp only [h1, if_true]
    refine M.succeeds_bind (layer2_succeeds env em) fun q2 => ?_
    by_cases h2 : q2.isEmpty
    · simp only [h2, if_true]
      exact layer3_succeeds env em
    · simp only [h2, Bool.false_eq_true, if_false]
      exact M.succeeds_pure _
  · simp only [h1, Bool.false_eq_true, if_false]
    exact M.succeeds_pure _

theorem play_succeeds (env : Env) (e : String) : (play_for_emotion env e).succeeds := by
  simp only [play_for_emotion, M.bind_eq]
  refine M.succeeds_bind (ensure_device_succeeds env) fun device => ?_
  rcases device with _ | d
  · exact M.succeeds_bind (M.succeeds_emit _) fun _ => M.succeeds_pure _
  · by_cases hd : d == ""
    · simp only [hd, if_true]
      exact M.succeeds_bind (M.succeeds_emit _) fun _ => M.succeeds_pure _
    · simp only [hd, Bool.false_eq_true, if_false]
      refine M.succeeds_bind (queue_succeeds env e.toLower) fun queue => ?_
      by_cases hq : queue.isEmpty
      · simp only [hq, if_true]
        exact M.succeeds_bind (M.succeeds_emit _) fun _ => M.succeeds_pure _
      · simp only [hq, Bool.false_eq_true, if_false]
        refine M.succeeds_attempt _ fun e => ?_
        exact M.succeeds_bind (M.succeeds_emit _) fun _ => M.succeeds_pure _

/-- When Layer 1 yields a non-empty queue it is the final queue; when it is
empty Layer 2 is consulted, and only when Layer 2 is empty too does Layer 3
run: Python or-chaining. -/
theorem queue_cases (env : Env) (em : String) (tr1 : List Ev) (q1 : List String)
    (h1 : layer_user_recommendations env em = (tr1, Except.ok q1)) :
    (q1 ≠ [] → queue_for_emotion env em = (tr1, Except.ok q1)) ∧
    (q1 = [] → ∀ tr2 q2, layer_playlist_matches env em = (tr2, Except.ok q2) →
      ((q2 ≠ [] → queue_for_emotion env em = (tr1 ++ tr2, Except.ok q2)) ∧
       (q2 = [] → queue_for_emotion env em =
          (tr1 ++ (tr2 ++ (layer_global_recommendations env em).1),
           (layer_global_recommendations env em).2)))) := by
  constructor
  · intro h1n
    simp [queue_for_emotion, h1, h1n]
  · rintro rfl tr2 q2 h2
    constructor
    · intro h2n
      simp [queue_for_emotion, h1, h2, h2n]
    · rintro rfl
      simp [queue_for_emotion, h1, h2]

/-- Control flow of play_for_emotion after a truthy device was resolved and
the layered queue computed: empty queue reports no tracks; otherwise the
first 50 uris are submitted and the outcome decides the boolean. -/
theorem play_decomp (env : Env) (e : String) (trD : List Ev) (d : String)
    (trQ : List Ev) (q : List String)
    (hd : ensure_device env = (trD, Except.ok (some d))) (hne : d ≠ "")
    (hq : queue_for_emotion env e.toLower = (trQ, Except.ok q)) :
    (q = [] → play_for_emotion env e =
      (trD ++ (trQ ++ [Ev.print Msg.noTracks]), Except.ok false)) ∧
    (q ≠ [] → env.start_playback d (q.take 50) = Except.ok () →
      play_for_emotion env e =
        (trD ++ (trQ ++ [Ev.call (Call.startPlayback d (q.take 50)),
          Ev.print (Msg.nowPlaying e.toLower q.length)]), Except.ok true)) ∧
    (q ≠ [] → env.start_playback d (q.take 50) = Except.error () →
      play_for_emotion env e =
        (trD ++ (trQ ++ [Ev.call (Call.startPlayback d (q.take 50)),
          Ev.print Msg.playbackFailed]), Except.ok false)) := by
  refine ⟨?_, ?_, ?_⟩
  · rintro rfl
    simp [play_for_emotion, hd, hne, hq]
  · intro hn hs
    simp [play_for_emotion, hd, hne, hq, hn, M.attempt, hs]
  · intro hn hs
    simp [play_for_emotion, hd, hne, hq, hn, M.attempt, hs]

/-- C1: for every emotion string, play_for_emotion uses the result of the
first layer that yields at least one URI and skips the later layers: a
non-empty Layer 1 queue means no Layer 2 or Layer 3 event ever appears in the
run's trace; an empty Layer 1 queue with a non-empty Layer 2 queue means no
Layer 3 event appears; and an empty Layer 1 result is not an error — Layer 2
is still invoked (its entry print appears in the trace). -/
theorem c1_layer_short_circuit (env : Env) (e : String) (trD : List Ev) (d : String)
    (hd : ensure_device env = (trD, Except.ok (some d))) (hne : d ≠ "") :
    (∀ tr1 q1, layer_user_recommendations env e.toLower = (tr1, Except.ok q1) → q1 ≠ [] →
      ∀ ev ∈ (play_for_emotion env e).1, layer2Ev ev = false ∧ layer3Ev ev = false) ∧
    (∀ tr1 tr2 q2, layer_user_recommendations env e.toLower = (tr1, Except.ok []) →
      layer_playlist_matches env e.toLower = (tr2, Except.ok q2) → q2 ≠ [] →
      ∀ ev ∈ (play_for_emotion env e).1, layer3Ev ev = false) ∧
    (∀ tr1, layer_user_recommendations env e.toLower = (tr1, Except.ok []) →
      Ev.print Msg.layer2 ∈ (play_for_emotion env e).1) := by
  have hTD : ∀ ev ∈ trD, layer2Ev ev = false ∧ layer3Ev ev = false := by
    intro ev hev
    have h2 := ensure_device_events env ev (by rw [hd]; exact hev)
    rcases h2 with rfl | ⟨s, rfl⟩ <;> exact ⟨rfl, rfl⟩
  refine ⟨?_, ?_, ?_⟩
  · intro tr1 q1 h1 h1n ev hev
    have hq := (queue_cases env e.toLower tr1 q1 h1).1 h1n
    have hT1 : ∀ ev ∈ tr1, layer2Ev ev = false ∧ layer3Ev ev = false := by
      intro ev hev1
      exact layer1_events env e.toLower ev (by rw [h1]; exact hev1)
    rcases hs : env.start_playback d (q1.take 50) with ⟨⟩ | ⟨⟩
    · rw [(play_decomp env e trD d tr1 q1 hd hne hq).2.2 h1n hs] at hev
      simp only [List.mem_append] at hev
      rcases hev with h | h | h
      · exact hTD ev h
      · exact hT1 ev h
      · simp at h
        rcases h with rfl | rfl <;> exact ⟨rfl, rfl⟩
    · rw [(play_decomp env e trD d tr1 q1 hd hne hq).2.1 h1n hs] at hev
      simp only [List.mem_append] at hev
      rcases hev with h | h | h
      · exact hTD ev h
      · exact hT1 ev h
      · simp at h
        rcases h with rfl | rfl <;> exact ⟨rfl, rfl⟩
  · intro tr1 tr2 q2 h1 h2 h2n ev hev
    have hq := ((queue_cases env e.toLower tr1 [] h1).2 rfl tr2 q2 h2).1 h2n
    have hT1 : ∀ ev ∈ tr1, layer3Ev ev = false := by
      intro ev hev1
      exact (layer1_events env e.toLower ev (by rw [h1]; exact hev1)).2
    have hT2 : ∀ ev ∈ tr2, layer3Ev ev = false := by
      intro ev hev2
      exact layer2_events env e.toLower ev (by rw [h2]; exact hev2)
    rcases hs : env.start_playback d (q2.take 50) with ⟨⟩ | ⟨⟩
    · rw [(play_decomp env e trD d (tr1 ++ tr2) q2 hd hne hq).2.2 h2n hs] at hev
      simp only [List.mem_append] at hev
      rcases hev with h | ((h | h) | h)
      · exact (hTD ev h).2
      · exact hT1 ev h
      · exact hT2 ev h
      · simp at h
        rcases h with rfl | rfl <;> rfl
    · rw [(play_decomp env e trD d (tr1 ++ tr2) q2 hd hne hq).2.1 h2n hs] at hev
      simp only [List.mem_append] at hev
      rcases hev with h | ((h | h) | h)
      · exact (hTD ev h).2
      · exact hT1 ev h
      · exact hT2 ev h
      · simp at h
        rcases h with rfl | rfl <;> rfl
  · intro tr1 h1
    rcases h2p : layer_playlist_matches env e.toLower with ⟨tr2, r2⟩
    obtain ⟨q2, hq2⟩ := layer2_succeeds env e.toLower
    rw [h2p] at hq2
    simp only at hq2
    subst hq2
    have hmem2 : Ev.print Msg.layer2 ∈ tr2 := by
      obtain ⟨tr', htr⟩ := layer2_head env e.toLower
      rw [h2p] at htr
      simp only at htr
      rw [htr]
      exact List.mem_cons_self _ _
    by_cases h2n : q2 = []
    · subst h2n
      have hq := ((queue_cases env e.toLower tr1 [] h1).2 rfl tr2 [] h2p).2 rfl
      obtain ⟨q3, hq3⟩ := layer3_succeeds env e.toLower
      rw [hq3] at hq
      by_cases h3n : q3 = []
      · subst h3n
        rw [(play_decomp env e trD d _ [] hd hne hq).1 rfl]
        simp [hmem2]
      · rcases hs : env.start_playback d (q3.take 50) with ⟨⟩ | ⟨⟩
        · rw [(play_decomp env e trD d _ q3 hd hne hq).2.2 h3n hs]
          simp [hmem2]
        · rw [(play_decomp env e trD d _ q3 hd hne hq).2.1 h3n hs]
          simp [hmem2]
    · have hq := ((queue_cases env e.toLower tr1 [] h1).2 rfl tr2 q2 h2p).1 h2n
      rcases hs : env.start_playback d (q2.take 50) with ⟨⟩ | ⟨⟩
      · rw [(play_decomp env e trD d _ q2 hd hne hq).2.2 h2n hs]
        simp [hmem2]
      · rw [(play_decomp env e trD d _ q2 hd hne hq).2.1 h2n hs]
        simp [hmem2]

/-- C4: with a resolved device and a non-empty layered queue, play_for_emotion
submits exactly the first 50 URIs of the queue to start_playback (the
submitted list is the 50-prefix, of length min 50 (queue length)) while the
now-playing report carries the full untruncated queue length. -/
theorem c4_submission_cap (env : Env) (e : String) (trD : List Ev) (d : String)
    (trQ : List Ev) (q : List String)
    (hd : ensure_device env = (trD, Except.ok (some d))) (hne : d ≠ "")
    (hq : queue_for_emotion env e.toLower = (trQ, Except.ok q)) (hqn : q ≠ [])
    (hs : env.start_playback d (q.take 50) = Except.ok ()) :
    play_for_emotion env e =
      (trD ++ (trQ ++ [Ev.call (Call.startPlayback d (q.take 50)),
        Ev.print (Msg.nowPlaying e.toLower q.length)]), Except.ok true) ∧
    (q.take 50).length = min 50 q.length ∧
    q.take 50 ++ q.drop 50 = q :=
  ⟨(play_decomp env e trD d trQ q hd hne hq).2.1 hqn hs,
    List.length_take 50 q, List.take_append_drop 50 q⟩

/-- C5: when device resolution yields no (truthy) playback device,
play_for_emotion returns False right away and the whole run's trace is just
the device listing and the no-device report: no recommendation-layer
collaborator (recommendations, playlists, search, top artists or tracks) is
ever called. -/
theorem c5_no_device_short_circuit (env : Env) (e : String) (dev : Option String)
    (hd : (ensure_device env).2 = Except.ok dev)
    (hfalsy : dev = none ∨ dev = some "") :
    play_for_emotion env e =
      ([Ev.call Call.devices, Ev.print Msg.noDevice], Except.ok false) ∧
    ∀ ev ∈ (play_for_emotion env e).1, recommendationEv ev = false := by
  have hcase : ensure_device env = ([Ev.call Call.devices], Except.ok dev) := by
    rcases ensure_device_cases env with h | h | ⟨i, hi, h⟩
    · rw [h] at hd ⊢
      simp only at hd
      injection hd with hd'
      subst hd'
      rfl
    · rw [h] at hd ⊢
      simp only at hd
      injection hd with hd'
      subst hd'
      rfl
    · rw [h] at hd
      simp only [Except.ok.injEq] at hd
      subst hd
      rcases hfalsy with h' | h' <;> simp at h'
      exact absurd h' hi
  have heq : play_for_emotion env e =
      ([Ev.call Call.devices, Ev.print Msg.noDevice], Except.ok false) := by
    rcases hfalsy with rfl | rfl <;> simp [play_for_emotion, hcase]
  refine ⟨heq, ?_⟩
  rw [heq]
  intro ev hev
  simp at hev
  rcases hev with rfl | rfl <;> rfl

/-- C9: for every emotion and every behaviour of the external calls,
play_for_emotion and each of the three layers terminate with an ok value (no
exception ever escapes); a failing profile fetch makes Layer 1 yield the empty
queue, and a failing playlist listing makes Layer 2 yield the empty queue. -/
theorem c9_failure_containment (env : Env) (e : String) :
    (∃ b, (play_for_emotion env e).2 = Except.ok b) ∧
    (∃ q, (layer_user_recommendations env e).2 = Except.ok q) ∧
    (∃ q, (layer_playlist_matches env e).2 = Except.ok q) ∧
    (∃ q, (layer_global_recommendations env e).2 = Except.ok q) ∧
    (env.current_user_top_artists = Except.error () →
      layer_user_recommendations env e =
        ([Ev.print Msg.layer1, Ev.call (Call.currentUserTopArtists 5)], Except.ok [])) ∧
    (env.current_user_playlists = Except.error () →
      layer_playlist_matches env e =
        ([Ev.print Msg.layer2, Ev.call Call.currentUserPlaylists], Except.ok [])) := by
  refine ⟨play_succeeds env e, layer1_succeeds env e, layer2_succeeds env e,
    layer3_succeeds env e, ?_, ?_⟩
  · intro h
    simp [layer_user_recommendations, h, M.attempt]
  · intro h
    simp [layer_playlist_matches, h, M.attempt]

/-- C10: pause and next always return normally with the unit value (Python
None), whatever the transport does: the exception is swallowed inside. -/
theorem c10_pause_next_swallow (env : Env) :
    pause env = ([Ev.call Call.pausePlayback], Except.ok ()) ∧
    next env = ([Ev.call Call.nextTrack], Except.ok ()) := by
  constructor
  · rcases h : env.pause_playback with ⟨⟩ | ⟨⟩ <;> simp [pause, M.attempt, h]
  · rcases h : env.next_track with ⟨⟩ | ⟨⟩ <;> simp [next, M.attempt, h]

/-- The value the track's feature map holds for the named feature, if any. -/
def featLookup (feat : FeatMap) (k : String) : Option Rat :=
  (feat.find? fun p => p.1 == k).map fun p => p.2

theorem match_features_one (feat : FeatMap) (kv : String × Rat × Rat) :
    (match feat.find? (fun p => p.1 == kv.1) with
     | none => true
     | some p => decide (kv.2.1 ≤ p.2 ∧ p.2 ≤ kv.2.2)) = true ↔
    ∀ v, featLookup feat kv.1 = some v → kv.2.1 ≤ v ∧ v ≤ kv.2.2 := by
  rcases hf : feat.find? fun p => p.1 == kv.1 with _ | p <;> simp [featLookup, hf]

/-- C3: the feature-matching predicate passes a track exactly when every
feature named in the target set that is also present on the track's feature
map has its measured value inside [low, high]; absent features are
non-constraining, so a track with no overlapping feature passes vacuously.
Concretely, valence 0.8 passes the interval (0.7, 1.0), valence 0.5 fails it,
and a track carrying only an unrelated feature passes. -/
theorem c3_match_features_iff :
    (∀ (feat : FeatMap) (target : List (String × Rat × Rat)),
      match_features feat target = true ↔
        ∀ kv ∈ target, ∀ v, featLookup feat kv.1 = some v →
          kv.2.1 ≤ v ∧ v ≤ kv.2.2) ∧
    match_features [("valence", 0.8)] [("valence", 0.7, 1.0)] = true ∧
    match_features [("valence", 0.5)] [("valence", 0.7, 1.0)] = false ∧
    match_features [("energy", 0.9)] [("valence", 0.7, 1.0)] = true := by
  refine ⟨?_, by with_unfolding_all rfl, by with_unfolding_all rfl,
    by with_unfolding_all rfl⟩
  intro feat target
  rw [match_features, List.all_eq_true]
  exact ⟨fun h kv hkv => (match_features_one feat kv).1 (h kv hkv),
    fun h kv hkv => (match_features_one feat kv).2 (h kv hkv)⟩

theorem c3_witness :
    ∀ kv ∈ ([("valence", (0.7 : Rat), (1.0 : Rat))] : List (String × Rat × Rat)),
      ∀ v, featLookup [("valence", (0.8 : Rat))] kv.1 = some v →
        kv.2.1 ≤ v ∧ v ≤ kv.2.2 :=
  (c3_match_features_iff.1 [("valence", 0.8)] [("valence", 0.7, 1.0)]).mp
    c3_match_features_iff.2.1

theorem le_foldr_max : ∀ (l : List Nat), ∀ a ∈ l, a ≤ l.foldr max 0 := by
  intro l
  induction l with
  | nil => simp
  | cons x xs ih =>
    intro a ha
    rcases List.mem_cons.1 ha with rfl | ha
    · exact Nat.le_max_left _ _
    · exact Nat.le_trans (ih a ha) (Nat.le_max_right _ _)

theorem foldr_max_mem : ∀ (l : List Nat), l.foldr max 0 ∈ l ∨ l.foldr max 0 = 0 := by
  intro l
  induction l with
  | nil => right; rfl
  | cons x xs ih =>
    rcases Nat.le_total x (xs.foldr max 0) with h | h
    · rw [List.foldr_cons, Nat.max_eq_right h]
      rcases ih with hm | h0
      · exact Or.inl (List.mem_cons_of_mem _ hm)
      · exact Or.inr h0
    · rw [List.foldr_cons, Nat.max_eq_left h]
      exact Or.inl (List.mem_cons_self _ _)

theorem count_le_maxCount {xs : List String} {x : String} (h : x ∈ xs) :
    xs.count x ≤ maxCount xs :=
  le_foldr_max _ _ (List.mem_map_of_mem _ h)

theorem exists_count_eq_maxCount (xs : List String) (h : xs ≠ []) :
    ∃ x ∈ xs, xs.count x = maxCount xs := by
  rcases foldr_max_mem (xs.map fun y => xs.count y) with hm | h0
  · rw [List.mem_map] at hm
    obtain ⟨x, hx, hcx⟩ := hm
    exact ⟨x, hx, hcx⟩
  · rcases xs with _ | ⟨x, l⟩
    · exact absurd rfl h
    · exfalso
      have h1 : 0 < (x :: l).count x := List.count_pos_iff.2 (List.mem_cons_self x l)
      have h2 := count_le_maxCount (List.mem_cons_self x l)
      rw [maxCount, h0] at h2
      omega

theorem find?_indexOf_le {p : String → Bool} :
    ∀ (l : List String) (a : String), l.find? p = some a →
      ∀ b ∈ l, p b = true → l.indexOf a ≤ l.indexOf b := by
  intro l
  induction l with
  | nil => intro a ha; simp at ha
  | cons x xs ih =>
    intro a ha b hb hpb
    by_cases hx : p x = true
    · rw [List.find?_cons_of_pos _ hx] at ha
      injection ha with ha'
      subst ha'
      rw [List.indexOf_cons_self]
      exact Nat.zero_le _
    · rw [List.find?_cons_of_neg _ hx] at ha
      have hax : x ≠ a := by
        intro hax
        subst hax
        exact hx (List.find?_some ha)
      have hbx : x ≠ b := by
        intro hbx
        subst hbx
        exact hx hpb
      have hb' : b ∈ xs := by
        rcases List.mem_cons.1 hb with rfl | hb'
        · exact absurd rfl hbx
        · exact hb'
      rw [List.indexOf_cons_ne _ hax, List.indexOf_cons_ne _ hbx]
      exact Nat.succ_le_succ (ih a ha b hb' hpb)

/-- The head of Counter.most_common: a label of maximal multiplicity whose
first occurrence is earliest among the maximal labels. -/
theorem mostCommon_spec (xs : List String) (h : xs ≠ []) :
    ∃ l, mostCommon xs = some l ∧ l ∈ xs ∧
      (∀ m ∈ xs, xs.count m ≤ xs.count l) ∧
      (∀ m ∈ xs, xs.count m = xs.count l → xs.indexOf l ≤ xs.indexOf m) := by
  obtain ⟨x, hx, hcx⟩ := exists_count_eq_maxCount xs h
  rcases hfind : xs.find? (fun y => xs.count y == maxCount xs) with _ | l
  · exfalso
    have := List.find?_eq_none.1 hfind x hx
    simp at this
    exact this hcx
  · have hpl : xs.count l = maxCount xs := by
      have := List.find?_some hfind
      simpa using this
    have hl : l ∈ xs := List.mem_of_find?_eq_some hfind
    refine ⟨l, ?_, hl, ?_, ?_⟩
    · rw [mostCommon, hfind]
    · intro m hm
      rw [hpl]
      exact count_le_maxCount hm
    · intro m hm hcm
      refine find?_indexOf_le xs l hfind m hm ?_
      simp [hcm, hpl]

/-- C6: over the five sampled frame outcomes, detect_dominant_emotion returns
a label of maximal frequency among the successful classifications, breaking
ties towards the label seen first; if no frame yields a label it returns
None (not neutral, not an error).  The literal 3-happy-2-sad scenario gives
happy, and five labelless frames give None. -/
theorem c6_dominant_emotion :
    (∀ outcomes : List (Bool × Option String), outcomes.length = EMOTION_FRAMES →
      ((frame_emotions outcomes = [] → detect_dominant_emotion outcomes = none) ∧
       (frame_emotions outcomes ≠ [] → ∃ l, detect_dominant_emotion outcomes = some l ∧
          l ∈ frame_emotions outcomes ∧
          (∀ m ∈ frame_emotions outcomes,
            (frame_emotions outcomes).count m ≤ (frame_emotions outcomes).count l) ∧
          (∀ m ∈ frame_emotions outcomes,
            (frame_emotions outcomes).count m = (frame_emotions outcomes).count l →
              (frame_emotions outcomes).indexOf l ≤ (frame_emotions outcomes).indexOf m)))) ∧
    detect_dominant_emotion [(true, some "happy"), (true, some "sad"), (true, some "happy"),
      (true, some "sad"), (true, some "happy")] = some "happy" ∧
    detect_dominant_emotion (List.replicate 5 (true, none)) = none := by
  refine ⟨?_, by decide, by decide⟩
  intro outcomes _
  constructor
  · intro h
    simp [detect_dominant_emotion, h]
  · intro h
    obtain ⟨l, h1, h2, h3, h4⟩ := mostCommon_spec (frame_emotions outcomes) h
    refine ⟨l, ?_, h2, h3, h4⟩
    simp only [detect_dominant_emotion]
    rw [if_neg (by simp [h]), h1]

theorem c6_witness :
    detect_dominant_emotion (List.replicate 5 ((false : Bool), some "x")) = none :=
  (c6_dominant_emotion.1 (List.replicate 5 ((false : Bool), some "x")) (by decide)).1
    (by decide)

theorem genres_nonempty (e : String) : dictGet EMOTION_GENRES e ["pop"] ≠ [] := by
  rw [dictGet]
  rcases hf : EMOTION_GENRES.find? (fun p => p.1 == e) with _ | p
  · rw [hf]
    simp
  · rw [hf]
    have hp := List.mem_of_find?_eq_some hf
    have hall : ∀ q ∈ EMOTION_GENRES, q.2 ≠ [] := by decide
    exact hall p hp

theorem randomChoice_mem (env : Env) {xs : List String} (h : xs ≠ []) :
    randomChoice env xs ∈ xs := by
  rw [randomChoice]
  have hl : 0 < xs.length := List.length_pos.2 h
  have hlt : env.pick xs % xs.length < xs.length := Nat.mod_lt _ hl
  rw [List.getD_eq_getElem xs "" hlt]
  exact List.getElem_mem hlt

/-- C7: Layer 3 first calls the recommendation capability with exactly one
genre seed (drawn from the emotion's candidate genres), no artist or track
seeds, limit 50, and the midpoint target hints, returning those tracks when
there are any; when that call fails or yields no tracks it falls back to a
keyword search for genre:(same seed) with limit 30 and returns those URIs;
and when the search fails too the layer returns the empty queue. -/
theorem c7_global_fallback (env : Env) (e : String) :
    (seedOf env e ∈ dictGet EMOTION_GENRES e ["pop"]) ∧
    (∀ ts, env.recommendations [seedOf env e] none none 50 (convert_targets e) =
        Except.ok ts → ts ≠ [] →
      layer_global_recommendations env e =
        ([Ev.print Msg.layer3,
          Ev.call (Call.recommendations [seedOf env e] none none 50 (convert_targets e))],
         Except.ok (ts.map TrackObj.uri))) ∧
    (env.recommendations [seedOf env e] none none 50 (convert_targets e) = Except.error () ∨
     env.recommendations [seedOf env e] none none 50 (convert_targets e) = Except.ok [] →
      (∀ its, env.search ("genre:" ++ seedOf env e) "track" 30 = Except.ok its →
        layer_global_recommendations env e =
          ([Ev.print Msg.layer3,
            Ev.call (Call.recommendations [seedOf env e] none none 50 (convert_targets e)),
            Ev.call (Call.search ("genre:" ++ seedOf env e) "track" 30)],
           Except.ok (its.map TrackObj.uri))) ∧
      (env.search ("genre:" ++ seedOf env e) "track" 30 = Except.error () →
        layer_global_recommendations env e =
          ([Ev.print Msg.layer3,
            Ev.call (Call.recommendations [seedOf env e] none none 50 (convert_targets e)),
            Ev.call (Call.search ("genre:" ++ seedOf env e) "track" 30)],
           Except.ok []))) := by
  refine ⟨randomChoice_mem env (genres_nonempty e), ?_, ?_⟩
  · intro ts hrec hn
    simp only [seedOf] at hrec
    simp [layer_global_recommendations, hrec, hn, M.attempt, seedOf]
  · intro hrec
    constructor
    · intro its hsearch
      simp only [seedOf] at hsearch
      rcases hrec with hrec | hrec <;> simp only [seedOf] at hrec <;>
        simp [layer_global_recommendations, hrec, hsearch, M.attempt, seedOf]
    · intro hsearch
      simp only [seedOf] at hsearch
      rcases hrec with hrec | hrec <;> simp only [seedOf] at hrec <;>
        simp [layer_global_recommendations, hrec, hsearch, M.attempt, seedOf]

/-- The closed emotion set of the configuration tables. -/
def closedEmotions : List String :=
  ["happy", "sad", "angry", "surprise", "disgust", "fear", "neutral"]

/-- C8: every emotion of the closed set maps to a non-empty genre list and to
target intervals with low ≤ high, whose midpoints (low+high)/2 therefore lie
inside the intervals; any other string falls back to the genre list [pop] and
the empty target set (so its midpoint conversion is empty too), with no
error. -/
theorem c8_profile_invariants :
    (∀ e ∈ closedEmotions, dictGet EMOTION_GENRES e ["pop"] ≠ [] ∧
      ∀ kv ∈ dictGet EMOTION_TARGETS e [],
        kv.2.1 ≤ kv.2.2 ∧ kv.2.1 ≤ (kv.2.1 + kv.2.2) / 2 ∧
          (kv.2.1 + kv.2.2) / 2 ≤ kv.2.2) ∧
    (∀ s : String, s ∉ closedEmotions →
      dictGet EMOTION_GENRES s ["pop"] = ["pop"] ∧ dictGet EMOTION_TARGETS s [] = [] ∧
      convert_targets s = []) := by
  constructor
  · with_unfolding_all decide
  · intro s hs
    simp [closedEmotions] at hs
    obtain ⟨h1, h2, h3, h4, h5, h6, h7⟩ := hs
    have hg : dictGet EMOTION_GENRES s ["pop"] = ["pop"] := by
      simp [dictGet, EMOTION_GENRES, List.find?_cons_of_neg, Ne.symm h1, Ne.symm h2,
        Ne.symm h3, Ne.symm h4, Ne.symm h5, Ne.symm h6, Ne.symm h7]
    have ht : dictGet EMOTION_TARGETS s [] = [] := by
      simp [dictGet, EMOTION_TARGETS, List.find?_cons_of_neg, Ne.symm h1, Ne.symm h2,
        Ne.symm h3, Ne.symm h4, Ne.symm h5, Ne.symm h6, Ne.symm h7]
    exact ⟨hg, ht, by simp [convert_targets, ht]⟩

theorem c8_witness :
    dictGet EMOTION_GENRES "bored" ["pop"] = ["pop"] ∧
    dictGet EMOTION_TARGETS "bored" [] = [] ∧ convert_targets "bored" = [] :=
  c8_profile_invariants.2 "bored" (by decide)

/-- An environment with one active device whose Layer 1 recommendation call
returns two tracks. -/
def env1 : Env where
  devices := Except.ok [⟨"dev", true⟩]
  transfer_playback := fun _ => Except.ok ()
  current_user_top_artists := Except.ok []
  current_user_top_tracks := Except.ok []
  recommendations := fun _ _ _ _ _ => Except.ok [⟨"t1", "u1"⟩, ⟨"t2", "u2"⟩]
  current_user_playlists := Except.ok []
  playlist_tracks := fun _ _ => Except.ok []
  audio_features := fun ids => Except.ok (ids.map fun _ => none)
  search := fun _ _ _ => Except.ok []
  start_playback := fun _ _ => Except.ok ()
  pause_playback := Except.ok ()
  next_track := Except.ok ()
  pick := fun _ => 0

theorem c1_witness :
    layer2Ev (Ev.print Msg.layer1) = false ∧ layer3Ev (Ev.print Msg.layer1) = false :=
  (c1_layer_short_circuit env1 "happy" _ "dev" rfl (by decide)).1 _ _ rfl (by decide)
    (Ev.print Msg.layer1) (by decide)

/-- 120 track objects with distinct uris. -/
def tracks120 : List TrackObj := (List.range 120).map fun i => ⟨toString i, toString i⟩

/-- The 120-element Layer 1 queue of env120. -/
def uris120 : List String := tracks120.map TrackObj.uri

/-- An environment with one active device whose Layer 1 recommendation call
returns 120 tracks. -/
def env120 : Env where
  devices := Except.ok [⟨"dev", true⟩]
  transfer_playback := fun _ => Except.ok ()
  current_user_top_artists := Except.ok []
  current_user_top_tracks := Except.ok []
  recommendations := fun _ _ _ _ _ => Except.ok tracks120
  current_user_playlists := Except.ok []
  playlist_tracks := fun _ _ => Except.ok []
  audio_features := fun ids => Except.ok (ids.map fun _ => none)
  search := fun _ _ _ => Except.ok []
  start_playback := fun _ _ => Except.ok ()
  pause_playback := Except.ok ()
  next_track := Except.ok ()
  pick := fun _ => 0

theorem c4_witness :
    (uris120.take 50).length = 50 ∧ uris120.length = 120 ∧
      (play_for_emotion env120 "happy").2 = Except.ok true := by
  have h := c4_submission_cap env120 "happy" _ "dev" _ uris120 rfl (by decide) rfl
    (by decide) rfl
  refine ⟨?_, by decide, ?_⟩
  · rw [h.2.1]
    decide
  · rw [h.1]

/-- An environment with no playback devices at all. -/
def envND : Env where
  devices := Except.ok []
  transfer_playback := fun _ => Except.ok ()
  current_user_top_artists := Except.ok []
  current_user_top_tracks := Except.ok []
  recommendations := fun _ _ _ _ _ => Except.ok []
  current_user_playlists := Except.ok []
  playlist_tracks := fun _ _ => Except.ok []
  audio_features := fun ids => Except.ok (ids.map fun _ => none)
  search := fun _ _ _ => Except.ok []
  start_playback := fun _ _ => Except.ok ()
  pause_playback := Except.ok ()
  next_track := Except.ok ()
  pick := fun _ => 0

theorem c5_witness :
    play_for_emotion envND "happy" =
      ([Ev.call Call.devices, Ev.print Msg.noDevice], Except.ok false) :=
  (c5_no_device_short_circuit envND "happy" none rfl (Or.inl rfl)).1

/-- An environment whose global recommendation call yields one track. -/
def env7 : Env where
  devices := Except.ok []
  transfer_playback := fun _ => Except.ok ()
  current_user_top_artists := Except.ok []
  current_user_top_tracks := Except.ok []
  recommendations := fun _ _ _ _ _ => Except.ok [⟨"g1", "gu1"⟩]
  current_user_playlists := Except.ok []
  playlist_tracks := fun _ _ => Except.ok []
  audio_features := fun ids => Except.ok (ids.map fun _ => none)
  search := fun _ _ _ => Except.ok []
  start_playback := fun _ _ => Except.ok ()
  pause_playback := Except.ok ()
  next_track := Except.ok ()
  pick := fun _ => 0

theorem c7_witness :
    layer_global_recommendations env7 "fear" =
      ([Ev.print Msg.layer3,
        Ev.call (Call.recommendations [seedOf env7 "fear"] none none 50
          (convert_targets "fear"))],
       Except.ok ["gu1"]) :=
  (c7_global_fallback env7 "fear").2.1 [⟨"g1", "gu1"⟩] rfl (by decide)

/-- Feature map the C2 environment measures for track t1: its valence 0.1
fails the happy target interval (0.7, 1.0). -/
def f1C2 : FeatMap := [("valence", 0.1), ("energy", 0.7), ("danceability", 0.6)]

/-- Feature map the C2 environment measures for track t2: every value lies in
the happy target intervals. -/
def f2C2 : FeatMap := [("valence", 0.8), ("energy", 0.7), ("danceability", 0.6)]

/-- The audio-features oracle of the C2 environment. -/
def featOfC2 (tid : String) : Option FeatMap :=
  if tid == "t1" then some f1C2 else if tid == "t2" then some f2C2 else none

/-- An environment with a single playlist holding a null-track item followed
by tracks t1 and t2; audio features are served per id, aligned with the
requested id list as the real endpoint does. -/
def envC2 : Env where
  devices := Except.ok []
  transfer_playback := fun _ => Except.ok ()
  current_user_top_artists := Except.error ()
  current_user_top_tracks := Except.error ()
  recommendations := fun _ _ _ _ _ => Except.error ()
  current_user_playlists := Except.ok [⟨"pl1"⟩]
  playlist_tracks := fun pid _ =>
    if pid == "pl1" then
      Except.ok [⟨none⟩, ⟨some ⟨"t1", "uri:t1"⟩⟩, ⟨some ⟨"t2", "uri:t2"⟩⟩]
    else Except.ok []
  audio_features := fun ids => Except.ok (ids.map featOfC2)
  search := fun _ _ _ => Except.ok []
  start_playback := fun _ _ => Except.ok ()
  pause_playback := Except.ok ()
  next_track := Except.ok ()
  pick := fun _ => 0

/-- C2 (refuted by the code): Layer 2 builds track_ids from the non-null
items only but zips the returned feature list against the unfiltered item
list, so with a null-track item present each feature map is paired with the
wrong item.  In envC2 the features of t1 are judged for the null item and the
features of t2 for t1: the layer keeps t1 (whose own features fail the happy
intervals) and never judges t2 (whose features pass), returning [uri:t1]
instead of the per-track-aligned [uri:t2]. -/
theorem c2_zip_misalignment :
    (layer_playlist_matches envC2 "happy").2 = Except.ok ["uri:t1"] ∧
    envC2.playlist_tracks "pl1" 50 =
      Except.ok [⟨none⟩, ⟨some ⟨"t1", "uri:t1"⟩⟩, ⟨some ⟨"t2", "uri:t2"⟩⟩] ∧
    envC2.audio_features ["t1"] = Except.ok [some f1C2] ∧
    envC2.audio_features ["t2"] = Except.ok [some f2C2] ∧
    match_features f1C2 (dictGet EMOTION_TARGETS "happy" []) = false ∧
    match_features f2C2 (dictGet EMOTION_TARGETS "happy" []) = true := by
  refine ⟨by with_unfolding_all rfl, rfl, rfl, rfl, ?_, ?_⟩
  · with_unfolding_all rfl
  · with_unfolding_all rfl

theorem c9_witness :
    layer_user_recommendations envC2 "happy" =
      ([Ev.print Msg.layer1, Ev.call (Call.currentUserTopArtists 5)], Except.ok []) :=
  (c9_failure_containment envC2 "happy").2.2.2.2.1 rfl

end Aura
